import Mathlib

/-!
Shallow embedding of `src/app.py` (a Streamlit stock-data dashboard) and
verification of the specification's claims about it.

The script is sequential UI glue: read sidebar inputs, fetch a price
series and a company-info snapshot from the provider, format headline
metrics and a metrics table, draw a candlestick/volume figure, show the
raw data and a base64 CSV download link.  We embed the script's pure
logic: Python heterogeneous values become `PyVal`, Python format-spec
application becomes `Except PyErr String` (TypeError / ValueError /
KeyError), the pandas frame becomes `DataFrame`, and the whole per-click
run of the script becomes `runApp`, which returns the rendered `Page`
together with the number of provider-fetch invocations.
-/

namespace StockApp

/-- Fuel-driven digit rendering: with fuel above `n` this produces the
decimal digits of `n`, most significant first. -/
def natCharsFuel : Nat → Nat → List Char
  | 0, _ => []
  | fuel + 1, n =>
    if n < 10 then [Nat.digitChar n]
    else natCharsFuel fuel (n / 10) ++ [Nat.digitChar (n % 10)]

/-- Decimal digit characters of a natural number, most significant digit
first (the textual rendering used by `str`/`repr` for integers). -/
def natChars (n : Nat) : List Char := natCharsFuel (n + 1) n

/-- Accumulator-threaded parser of a run of decimal digit characters
(the numeric-cell reader of a CSV parser). -/
def parseNatAux : List Char → Nat → Option Nat
  | [], acc => some acc
  | c :: cs, acc =>
    if c.isDigit then parseNatAux cs (acc * 10 + (c.toNat - 48)) else none

/-- Parse a nonempty all-digit character run as a natural number. -/
def parseNatChars : List Char → Option Nat
  | [] => none
  | c :: cs => parseNatAux (c :: cs) 0

/-- Character rendering of an integer (Python `str`). -/
def intChars (n : Int) : List Char :=
  if n < 0 then '-' :: natChars n.natAbs else natChars n.natAbs

/-- Parse an optionally `-`-signed digit run as an integer. -/
def parseIntChars : List Char → Option Int
  | [] => none
  | c :: cs =>
    if c = '-' then (parseNatChars cs).map (fun m => -(m : Int))
    else (parseNatChars (c :: cs)).map (fun m => (m : Int))

/-- Split on a separator character; `acc` holds the current field reversed. -/
def splitOnCharAux (c : Char) : List Char → List Char → List (List Char)
  | [], acc => [acc.reverse]
  | x :: xs, acc =>
    if x = c then acc.reverse :: splitOnCharAux c xs []
    else splitOnCharAux c xs (x :: acc)

/-- Split a character list on a separator character. -/
def splitOnChar (c : Char) (l : List Char) : List (List Char) :=
  splitOnCharAux c l []

/-- Join fields with a separator character between consecutive fields. -/
def intercalateChar (c : Char) : List (List Char) → List Char
  | [] => []
  | [l] => l
  | l :: l2 :: ls => l ++ c :: intercalateChar c (l2 :: ls)

/-- Join lines, terminating every line with a newline (pandas `to_csv`
ends the text with a trailing newline). -/
def linesJoin : List (List Char) → List Char
  | [] => []
  | l :: ls => l ++ '\n' :: linesJoin ls

/-- Drop the empty final row produced by the trailing newline, as a CSV
reader does. -/
def stripTrailingEmpty (rows : List (List Char)) : List (List Char) :=
  match rows.getLast? with
  | some [] => rows.dropLast
  | _ => rows

/-- Substring test on character lists (Python `needle in hay`). -/
def containsSub (needle : List Char) : List Char → Bool
  | [] => needle.isEmpty
  | c :: cs => needle.isPrefixOf (c :: cs) || containsSub needle cs

/-- Round a rational to the nearest integer, ties to even (the rounding
of Python's fixed-point float formatting). -/
def roundHalfEven (q : ℚ) : Int :=
  let f : Int := ⌊q⌋
  let r : ℚ := q - f
  if r < 1/2 then f
  else if 1/2 < r then f + 1
  else if f % 2 = 0 then f else f + 1

/-- Characters of `format(q, '.2f')`: sign, integer part, a point and
exactly two fraction digits. -/
def fixed2Chars (q : ℚ) : List Char :=
  let m : Nat := (roundHalfEven (q * 100)).natAbs
  (if q < 0 then ['-'] else []) ++ natChars (m / 100) ++
    ['.', Nat.digitChar (m % 100 / 10), Nat.digitChar (m % 10)]

/-- Python `f"{q:.2f}"`. -/
def formatFixed2 (q : ℚ) : String := ⟨fixed2Chars q⟩

/-- Python `f"{q:.2%}"`: multiply by 100, fixed two decimals, trailing
percent sign. -/
def formatPercent2 (q : ℚ) : String := ⟨fixed2Chars (q * 100) ++ ['%']⟩

/-- Insert a comma after every three digits; input and output are
least-significant-first. -/
def groupAux : List Char → Nat → List Char
  | [], _ => []
  | c :: cs, k =>
    if k ≠ 0 ∧ k % 3 = 0 then ',' :: c :: groupAux cs (k + 1)
    else c :: groupAux cs (k + 1)

/-- Python `f"{n:,}"` for an integer: thousands-grouped digits. -/
def commaChars (n : Int) : List Char :=
  (if n < 0 then ['-'] else []) ++ (groupAux (natChars n.natAbs).reverse 0).reverse

/-- Fuel-bounded decimal expansion of a fraction in `[0, 1)`. -/
def fracChars : Nat → ℚ → List Char
  | 0, _ => []
  | fuel + 1, q =>
    if q = 0 then []
    else Nat.digitChar (⌊q * 10⌋).toNat :: fracChars fuel (q * 10 - ⌊q * 10⌋)

/-- Characters of Python `str` on a (rational-modelled) float. -/
def ratChars (q : ℚ) : List Char :=
  let a : ℚ := |q|
  (if q < 0 then ['-'] else []) ++ natChars ⌊a⌋.toNat ++
    (if a - ⌊a⌋ = 0 then ['.', '0'] else '.' :: fracChars 20 (a - ⌊a⌋))

/-- Python `f"{q:,}"` for a float: grouped integer part plus fraction. -/
def commaRatChars (q : ℚ) : List Char :=
  let a : ℚ := |q|
  (if q < 0 then ['-'] else []) ++ (groupAux (natChars ⌊a⌋.toNat).reverse 0).reverse ++
    (if a - ⌊a⌋ = 0 then ['.', '0'] else '.' :: fracChars 20 (a - ⌊a⌋))

/-- Heterogeneous Python values found in the yfinance `info` snapshot. -/
inductive PyVal where
  | none
  | int (n : Int)
  | num (q : ℚ)
  | str (s : String)
deriving DecidableEq, BEq

/-- The Python exception classes the script's formatting can raise.
`format(None, '.2f')` raises `TypeError`; `format('N/A', '.2f')` raises
`ValueError`; `KeyError` is listed in the script's `except` clause. -/
inductive PyErr where
  | typeError
  | keyError
  | valueError
deriving DecidableEq, BEq

/-- The company-info snapshot: a Python dict from attribute name to value. -/
abbrev Snapshot := List (String × PyVal)

/-- Dict lookup (first binding wins, as keys are unique in a dict). -/
def lookupS (info : Snapshot) (key : String) : Option PyVal :=
  (info.find? (fun p => p.1 == key)).map (fun p => p.2)

/-- Python `info.get(key, default)`. -/
def pyGetD (info : Snapshot) (key : String) (dflt : PyVal) : PyVal :=
  (lookupS info key).getD dflt

/-- Python `str()` of a value. -/
def pyStr : PyVal → String
  | PyVal.none => "None"
  | PyVal.int n => ⟨intChars n⟩
  | PyVal.num q => ⟨ratChars q⟩
  | PyVal.str s => s

/-- Apply format spec `.2f` to a value: numbers format, strings raise
`ValueError` (unknown format code 'f' for str), `None` raises `TypeError`. -/
def fmt2f : PyVal → Except PyErr String
  | PyVal.int n => Except.ok (formatFixed2 (n : ℚ))
  | PyVal.num q => Except.ok (formatFixed2 q)
  | PyVal.str _ => Except.error PyErr.valueError
  | PyVal.none => Except.error PyErr.typeError

/-- Apply format spec `.2%` to a value. -/
def fmt2pct : PyVal → Except PyErr String
  | PyVal.int n => Except.ok (formatPercent2 (n : ℚ))
  | PyVal.num q => Except.ok (formatPercent2 q)
  | PyVal.str _ => Except.error PyErr.valueError
  | PyVal.none => Except.error PyErr.typeError

/-- Apply format spec `,` (thousands grouping) to a value. -/
def fmtComma : PyVal → Except PyErr String
  | PyVal.int n => Except.ok ⟨commaChars n⟩
  | PyVal.num q => Except.ok ⟨commaRatChars q⟩
  | PyVal.str _ => Except.error PyErr.valueError
  | PyVal.none => Except.error PyErr.typeError

/-- Python true division of a snapshot value by an integer constant
(`info.get('marketCap', 0)/1_000_000_000`); non-numeric operands raise
`TypeError`. -/
def pyDiv (v : PyVal) (d : Int) : Except PyErr ℚ :=
  match v with
  | PyVal.int n => Except.ok ((n : ℚ) / (d : ℚ))
  | PyVal.num q => Except.ok (q / (d : ℚ))
  | PyVal.str _ => Except.error PyErr.typeError
  | PyVal.none => Except.error PyErr.typeError

/-- One OHLCV record of the price series, with its timestamp index cell
(`yf.download` returns a frame indexed by `Date` with columns
`Open`, `High`, `Low`, `Close`, `Volume`). -/
structure Bar where
  Date : String
  Open : Int
  High : Int
  Low : Int
  Close : Int
  Volume : Int
deriving DecidableEq, BEq

/-- The pandas frame: a `Date` index plus named columns. -/
structure DataFrame where
  index : List String
  cols : List (String × List Int)
deriving DecidableEq, BEq

/-- The frame `yf.download` delivers for a list of bars. -/
def toDataFrame (bars : List Bar) : DataFrame :=
  { index := bars.map (fun b => b.Date)
    cols := [("Open", bars.map (fun b => b.Open)),
             ("High", bars.map (fun b => b.High)),
             ("Low", bars.map (fun b => b.Low)),
             ("Close", bars.map (fun b => b.Close)),
             ("Volume", bars.map (fun b => b.Volume))] }

/-- Column access `df[name]`; `none` models a `KeyError`. -/
def dfCol (df : DataFrame) (name : String) : Option (List Int) :=
  (df.cols.find? (fun c => c.1 == name)).map (fun c => c.2)

/-- `df.empty`. -/
def dfEmpty (df : DataFrame) : Bool := df.index.isEmpty

/-- The Plotly figure of lines 126-162: a candlestick trace over the
`Date` index plus a volume bar trace on a secondary axis, titled with
the symbol. -/
structure Figure where
  x : List String
  openData : List Int
  highData : List Int
  lowData : List Int
  closeData : List Int
  volX : List String
  volY : List Int
  title : String
deriving DecidableEq, BEq

/-- Build the candlestick-plus-volume figure; a missing column is a
`KeyError` (`none`). -/
def buildFigure (symbol : String) (df : DataFrame) : Option Figure := do
  let o ← dfCol df "Open"
  let h ← dfCol df "High"
  let l ← dfCol df "Low"
  let c ← dfCol df "Close"
  let v ← dfCol df "Volume"
  pure { x := df.index, openData := o, highData := h, lowData := l,
         closeData := c, volX := df.index, volY := v,
         title := symbol ++ " Stock Price and Volume" }

/-- Cell rows of a frame: peel the head of every column per index entry. -/
def dfRowsAux : List String → List (String × List Int) → List (List (List Char))
  | [], _ => []
  | ts :: rest, cols =>
    (ts.data :: cols.map (fun c => intChars (c.2.headD 0))) ::
      dfRowsAux rest (cols.map (fun c => (c.1, c.2.tail)))

/-- All CSV cell rows of `df.to_csv(index=True)`: a header row naming
the index (`Date`) and every column, then one row per bar. -/
def csvCells (df : DataFrame) : List (List (List Char)) :=
  ("Date".data :: df.cols.map (fun c => c.1.data)) :: dfRowsAux df.index df.cols

/-- The CSV text characters: comma-joined cells, newline-terminated rows. -/
def csvChars (df : DataFrame) : List Char :=
  linesJoin ((csvCells df).map (intercalateChar ','))

/-- `df.to_csv(index=True)`. -/
def toCsvText (df : DataFrame) : String := ⟨csvChars df⟩

/-- The base64 alphabet. -/
def base64Table : List Char :=
  "ABCDEFGHIJKLMNOPQRSTUVWXYZabcdefghijklmnopqrstuvwxyz0123456789+/".data

/-- Look up a 6-bit group in the base64 alphabet. -/
def b64Char (i : Nat) : Char := base64Table.getD i '?'

/-- Standard base64 of a byte list, with `=` padding. -/
def b64EncodeBytes : List Nat → List Char
  | [] => []
  | [a] => [b64Char (a / 4), b64Char (a % 4 * 16), '=', '=']
  | [a, b] => [b64Char (a / 4), b64Char (a % 4 * 16 + b / 16), b64Char (b % 16 * 4), '=']
  | a :: b :: c :: rest =>
    [b64Char (a / 4), b64Char (a % 4 * 16 + b / 16),
     b64Char (b % 16 * 4 + c / 64), b64Char (c % 64)] ++ b64EncodeBytes rest

/-- `base64.b64encode(s.encode()).decode()` (the CSV text is ASCII). -/
def base64Encode (s : String) : String :=
  ⟨b64EncodeBytes (s.data.map (fun c => c.toNat))⟩

/-- Lines 75-79: serialize the frame to CSV, base64-encode it and wrap
it in a data-URI anchor whose `download` attribute is the filename. -/
def get_csv_download_link (df : DataFrame) (filename : String) : String :=
  "<a href=\"data:file/csv;base64," ++ base64Encode (toCsvText df) ++
    "\" download=\"" ++ filename ++ "\">Download CSV File</a>"

/-- Decode one CSV body row back into a bar. -/
def decodeRow : List (List Char) → Option Bar
  | [d, o, h, l, c, v] => do
    let oi ← parseIntChars o
    let hi ← parseIntChars h
    let li ← parseIntChars l
    let ci ← parseIntChars c
    let vi ← parseIntChars v
    pure { Date := ⟨d⟩, Open := oi, High := hi, Low := li, Close := ci, Volume := vi }
  | _ => none

/-- Decode all CSV body rows. -/
def decodeRows : List (List (List Char)) → Option (List Bar)
  | [] => some []
  | r :: rs =>
    match decodeRow r, decodeRows rs with
    | some b, some bs => some (b :: bs)
    | _, _ => none

/-- Parse exported CSV text back into the bar list: split lines, drop
the trailing empty line, check the header, decode every body row. -/
def decodeCsv (s : String) : Option (List Bar) :=
  match stripTrailingEmpty (splitOnChar '\n' s.data) with
  | [] => none
  | header :: body =>
    if header = "Date,Open,High,Low,Close,Volume".data then
      decodeRows (body.map (splitOnChar ','))
    else none

/-- Line 28: `.upper()` on the symbol input (tickers are ASCII). -/
def pyUpper (s : String) : String := ⟨s.data.map Char.toUpper⟩

/-- Python `key.lower()` as used by the metrics loop's substring tests. -/
def pyLower (s : String) : String := ⟨s.data.map Char.toLower⟩

/-- Line 40: the period selectbox options. -/
def period_options : List String :=
  ["1d", "5d", "1mo", "3mo", "6mo", "1y", "2y", "5y", "10y", "ytd", "max"]

/-- Line 44: the interval selectbox options. -/
def interval_options : List String := ["1d", "5d", "1wk", "1mo", "3mo"]

/-- The provider request a fetch resolves to: by preset period or by an
explicit start/end date pair (dates as opaque day numbers). -/
inductive ProviderQuery where
  | byPreset (ticker period interval : String)
  | byRange (ticker : String) (startDate endDate : Nat) (interval : String)
deriving DecidableEq, BEq

/-- Lines 89-92 (mirroring the same test inside `get_stock_data`,
lines 51-54): if the selected period is not `"custom"` request by
preset+interval, otherwise by explicit start/end+interval. -/
def appSeriesQuery (symbol period interval : String) (startDate endDate : Nat) :
    ProviderQuery :=
  if period ≠ "custom" then ProviderQuery.byPreset symbol period interval
  else ProviderQuery.byRange symbol startDate endDate interval

/-- Lines 48-61, `get_stock_data`: a provider exception is caught,
reported as a diagnostic `st.error` and normalized to `None`; an empty
frame is normalized to `None` silently; otherwise the frame is
returned.  The provider response is an argument (exception message or
bar list). -/
def get_stock_data (resp : Except String (List Bar)) :
    Option DataFrame × List String :=
  match resp with
  | Except.error e => (none, ["Error fetching data: " ++ e])
  | Except.ok bars =>
    if dfEmpty (toDataFrame bars) then (none, [])
    else (some (toDataFrame bars), [])

/-- Lines 64-72, `get_stock_info`: a provider exception is caught,
reported as a diagnostic and normalized to `None`; any returned
snapshot — including an empty one — is passed through unchanged. -/
def get_stock_info (resp : Except String Snapshot) :
    Option Snapshot × List String :=
  match resp with
  | Except.error e => (none, ["Error fetching stock info: " ++ e])
  | Except.ok info => (some info, [])

/-- Lines 106-118: the four headline `st.metric` value strings, in
column order, as an exception-propagating computation. -/
def headlineExc (info : Snapshot) : Except PyErr (List String) := do
  let p ← fmt2f (pyGetD info "currentPrice" (PyVal.str "N/A"))
  let mc ← pyDiv (pyGetD info "marketCap" (PyVal.int 0)) 1000000000
  let pe ← fmt2f (pyGetD info "trailingPE" (PyVal.str "N/A"))
  let lo ← fmt2f (pyGetD info "fiftyTwoWeekLow" (PyVal.str "N/A"))
  let hi ← fmt2f (pyGetD info "fiftyTwoWeekHigh" (PyVal.str "N/A"))
  pure ["$" ++ p, "$" ++ formatFixed2 mc ++ "B", pe, "$" ++ lo ++ " - $" ++ hi]

/-- Lines 169-174: the fixed allow-list of snapshot keys surfaced in the
metrics table. -/
def metric_keys : List String :=
  ["previousClose", "open", "dayLow", "dayHigh", "volume", "averageVolume",
   "fiftyDayAverage", "twoHundredDayAverage", "marketCap", "beta",
   "trailingPE", "forwardPE", "dividendYield", "trailingAnnualDividendYield",
   "earningsQuarterlyGrowth", "priceToSalesTrailing12Months"]

/-- Lines 195-212: the key-to-label mapping of the metrics table. -/
def name_mapping : List (String × String) :=
  [("previousClose", "Previous Close"), ("open", "Open"),
   ("dayLow", "Day Low"), ("dayHigh", "Day High"),
   ("volume", "Volume"), ("averageVolume", "Average Volume"),
   ("fiftyDayAverage", "50-Day Average"), ("twoHundredDayAverage", "200-Day Average"),
   ("marketCap", "Market Cap"), ("beta", "Beta"),
   ("trailingPE", "Trailing P/E"), ("forwardPE", "Forward P/E"),
   ("dividendYield", "Dividend Yield"),
   ("trailingAnnualDividendYield", "Trailing Annual Dividend Yield"),
   ("earningsQuarterlyGrowth", "Earnings Quarterly Growth"),
   ("priceToSalesTrailing12Months", "Price to Sales (TTM)")]

/-- Lines 180-185, the per-key body of the metrics formatting loop:
volume-like keys and `marketCap` are thousands-grouped; keys containing
`yield` with a non-`None` value format as `.2%`; other ints/floats
format as `.2f`; everything else (including `None`) passes through. -/
def formatMetricValue (key : String) (v : PyVal) : Except PyErr PyVal :=
  if containsSub "volume".data (pyLower key).data || key == "marketCap" then
    (fmtComma v).map PyVal.str
  else if containsSub "yield".data (pyLower key).data && !(v == PyVal.none) then
    (fmt2pct v).map PyVal.str
  else if (match v with | PyVal.int _ => true | PyVal.num _ => true | _ => false) then
    (fmt2f v).map PyVal.str
  else Except.ok v

/-- Lines 176-186: walk the allow-list in order, keeping the keys present
in the snapshot with their formatted values; a formatting exception
propagates (this loop is outside any `try`). -/
def buildKeyMetricsGo (info : Snapshot) : List String → Except PyErr (List (String × PyVal))
  | [] => Except.ok []
  | k :: ks =>
    match lookupS info k with
    | Option.none => buildKeyMetricsGo info ks
    | Option.some v => do
      let fv ← formatMetricValue k v
      let rest ← buildKeyMetricsGo info ks
      pure ((k, fv) :: rest)

/-- The `key_metrics` dict of the metrics loop, in allow-list order. -/
def buildKeyMetrics (info : Snapshot) : Except PyErr (List (String × PyVal)) :=
  buildKeyMetricsGo info metric_keys

/-- Line 214: replace each key by its human-readable label (fallback:
the raw key). -/
def labeledMetrics (km : List (String × PyVal)) : List (String × PyVal) :=
  km.map (fun kv =>
    (((name_mapping.find? (fun p => p.1 == kv.1)).map (fun p => p.2)).getD kv.1, kv.2))

/-- Lines 237-248: the static popular-stocks table of the idle display. -/
def popular_stocks : List (String × String) :=
  [("AAPL", "Apple Inc."), ("MSFT", "Microsoft Corporation"),
   ("GOOGL", "Alphabet Inc."), ("AMZN", "Amazon.com, Inc."),
   ("TSLA", "Tesla, Inc."), ("META", "Meta Platforms, Inc."),
   ("NVDA", "NVIDIA Corporation"), ("JPM", "JPMorgan Chase & Co."),
   ("V", "Visa Inc."), ("WMT", "Walmart Inc.")]

/-- Everything one script run paints on the page.  `errors` collects the
`st.error` boxes in order; `uncaught` records an exception that escaped
and aborted the rest of the script (Streamlit stops rendering there). -/
structure Page where
  errors : List String := []
  headerText : Option String := none
  headlineMetrics : Option (List String) := none
  headlineWarning : Bool := false
  chart : Option Figure := none
  metricsTable : Option (List (String × PyVal)) := none
  dataTable : Bool := false
  csvLink : Option String := none
  summary : Option String := none
  instructions : Bool := false
  popularTable : Option (List (String × String)) := none
  uncaught : Option PyErr := none
deriving DecidableEq, BEq

/-- The script after the headline block: chart (lines 126-162), metrics
table (lines 164-217), data table, CSV link, optional summary; an
exception raised by a step aborts everything after it. -/
def afterHeadline (symbol : String) (df : DataFrame) (info : Snapshot)
    (header : String) (ms : Option (List String)) (warn : Bool) : Page :=
  match buildFigure symbol df with
  | Option.none =>
    { headerText := some header, headlineMetrics := ms, headlineWarning := warn,
      uncaught := some PyErr.keyError }
  | Option.some fig =>
    match buildKeyMetrics info with
    | Except.error e =>
      { headerText := some header, headlineMetrics := ms, headlineWarning := warn,
        chart := some fig, uncaught := some e }
    | Except.ok km =>
      { headerText := some header, headlineMetrics := ms, headlineWarning := warn,
        chart := some fig, metricsTable := some (labeledMetrics km),
        dataTable := true,
        csvLink := some (get_csv_download_link df (symbol ++ "_data.csv")),
        summary := (lookupS info "longBusinessSummary").map pyStr }

/-- Lines 100-229, the Success branch: header, headline metrics guarded
by `except (TypeError, KeyError)` — any other exception (for example the
`ValueError` from formatting the string `'N/A'` with `.2f`) escapes and
aborts the rest — then chart, tables, CSV link, summary. -/
def renderSuccess (symbol : String) (df : DataFrame) (info : Snapshot) : Page :=
  let header := pyStr (pyGetD info "shortName" (PyVal.str symbol)) ++
    " (" ++ symbol ++ ")"
  match headlineExc info with
  | Except.ok ms => afterHeadline symbol df info header (some ms) false
  | Except.error e =>
    if e = PyErr.typeError ∨ e = PyErr.keyError then
      afterHeadline symbol df info header none true
    else { headerText := some header, uncaught := some e }

/-- One button-triggered run of the script body (lines 82-256).  The two
provider responses are arguments; the second component counts the
fetch-function invocations.  The trailing idle block (line 232,
`if 'df' not in locals()`) renders the instructions and popular-stocks
table only when no fetch assignment happened in this run. -/
def runApp (clicked : Bool) (rawSymbol period interval : String)
    (seriesResp : Except String (List Bar)) (infoResp : Except String Snapshot) :
    Page × Nat :=
  let symbol := pyUpper rawSymbol
  if clicked then
    if symbol = "" then
      ({ errors := ["Please enter a stock symbol"],
         instructions := true, popularTable := some popular_stocks }, 0)
    else
      let sd := get_stock_data seriesResp
      let si := get_stock_info infoResp
      match sd.1, si.1 with
      | Option.some df, Option.some info =>
        let p := renderSuccess symbol df info
        ({ p with errors := sd.2 ++ si.2 ++ p.errors }, 2)
      | _, _ =>
        ({ errors := sd.2 ++ si.2 ++
             ["Could not retrieve data for " ++ symbol ++
              ". Please verify the stock symbol and try again."] }, 2)
  else
    ({ instructions := true, popularTable := some popular_stocks }, 0)

/-- Modelled from the spec: the `@st.cache_data(ttl=3600)` memoization
the Streamlit framework supplies around both fetch functions is not part
of `src/`; per the spec it is a map from the request key to the value
plus its creation time, expiring a fixed 3600-second window after
creation.  `cachedFetch` looks the key up at time `now`: a live entry is
returned with no provider call (`false`); otherwise `fresh` stands for
the value a new provider call returns and is stored (`true`). -/
def cachedFetch {κ α : Type} [DecidableEq κ] (cache : List (κ × α × Nat))
    (now : Nat) (k : κ) (fresh : α) : α × List (κ × α × Nat) × Bool :=
  match cache.find? (fun e => decide (e.1 = k)) with
  | Option.some e =>
    if now < e.2.2 + 3600 then (e.2.1, cache, false)
    else (fresh, (k, fresh, now) :: cache.filter (fun e => decide (e.1 ≠ k)), true)
  | Option.none => (fresh, (k, fresh, now) :: cache, true)

/-- A rendered metric string has a trailing percent sign immediately
preceded by exactly two fraction digits after the decimal point. -/
def twoFracDigitsPct (s : String) : Bool :=
  match s.data.reverse with
  | p :: c2 :: c1 :: d :: _ => p == '%' && d == '.' && c1.isDigit && c2.isDigit
  | _ => false

/-- A timestamp cell that CSV serialization keeps verbatim: it contains
neither the field separator nor a newline. -/
def dateOk (s : String) : Bool :=
  s.data.all (fun x => !(x == ',') && !(x == '\n'))

/-- The CSV cell row a single bar serializes to. -/
def barCells (b : Bar) : List (List Char) :=
  [b.Date.data, intChars b.Open, intChars b.High, intChars b.Low,
   intChars b.Close, intChars b.Volume]

/-- A concrete sample bar used to instantiate proved theorems. -/
def demoBar : Bar :=
  { Date := "2024-01-02", Open := 100, High := 110, Low := 90,
    Close := 105, Volume := 1000 }

section DigitLemmas

theorem digitChar_isDigit {j : Nat} (h : j < 10) :
    (Nat.digitChar j).isDigit = true := by
  have H : ∀ j, j < 10 → (Nat.digitChar j).isDigit = true := by decide
  exact H j h

theorem digitChar_toNat {j : Nat} (h : j < 10) :
    (Nat.digitChar j).toNat - 48 = j := by
  have H : ∀ j, j < 10 → (Nat.digitChar j).toNat - 48 = j := by decide
  exact H j h

theorem isDigit_ne_comma {c : Char} (h : c.isDigit = true) : c ≠ ',' := by
  intro he
  subst he
  simp at h

theorem isDigit_ne_newline {c : Char} (h : c.isDigit = true) : c ≠ '\n' := by
  intro he
  subst he
  simp at h

theorem isDigit_ne_minus {c : Char} (h : c.isDigit = true) : c ≠ '-' := by
  intro he
  subst he
  simp at h

theorem natCharsFuel_irrel : ∀ f₁ : Nat, ∀ n : Nat, ∀ f₂ : Nat, n < f₁ → n < f₂ →
    natCharsFuel f₁ n = natCharsFuel f₂ n := by
  intro f₁
  induction f₁ with
  | zero => intro n f₂ h; omega
  | succ f ih =>
    intro n f₂ h₁ h₂
    cases f₂ with
    | zero => omega
    | succ f₂ =>
      by_cases hn : n < 10
      · simp [natCharsFuel, hn]
      · have hd : n / 10 < f := by omega
        have hd₂ : n / 10 < f₂ := by omega
        simp only [natCharsFuel, if_neg hn]
        rw [ih (n / 10) f₂ hd hd₂]

theorem natChars_lt {n : Nat} (h : n < 10) : natChars n = [Nat.digitChar n] := by
  simp [natChars, natCharsFuel, h]

theorem natChars_ge {n : Nat} (h : ¬ n < 10) :
    natChars n = natChars (n / 10) ++ [Nat.digitChar (n % 10)] := by
  have step : natCharsFuel (n + 1) n =
      natCharsFuel n (n / 10) ++ [Nat.digitChar (n % 10)] := by
    simp only [natCharsFuel, if_neg h]
  have h2 : natCharsFuel n (n / 10) = natCharsFuel (n / 10 + 1) (n / 10) :=
    natCharsFuel_irrel n (n / 10) (n / 10 + 1) (by omega) (by omega)
  show natCharsFuel (n + 1) n = natCharsFuel (n / 10 + 1) (n / 10) ++ [Nat.digitChar (n % 10)]
  rw [step, h2]

theorem natChars_ne_nil (n : Nat) : natChars n ≠ [] := by
  by_cases h : n < 10
  · rw [natChars_lt h]; simp
  · rw [natChars_ge h]; simp

theorem mem_natChars_isDigit : ∀ n : Nat, ∀ c ∈ natChars n, c.isDigit = true := by
  intro n
  induction n using Nat.strong_induction_on with
  | _ n ih =>
    intro c hc
    by_cases h : n < 10
    · rw [natChars_lt h] at hc
      simp at hc
      subst hc
      exact digitChar_isDigit h
    · rw [natChars_ge h] at hc
      rcases List.mem_append.mp hc with h1 | h1
      · exact ih (n / 10) (Nat.div_lt_self (by omega) (by omega)) c h1
      · simp at h1
        subst h1
        exact digitChar_isDigit (Nat.mod_lt _ (by omega))

theorem parseNatAux_append (l₁ l₂ : List Char) :
    ∀ acc, parseNatAux (l₁ ++ l₂) acc =
      (parseNatAux l₁ acc).bind (fun a => parseNatAux l₂ a) := by
  induction l₁ with
  | nil => intro acc; simp [parseNatAux]
  | cons c cs ih =>
    intro acc
    by_cases h : c.isDigit
    · simp [parseNatAux, h, ih]
    · simp [parseNatAux, h]

theorem parseNatAux_natChars : ∀ n : Nat, ∀ acc : Nat,
    parseNatAux (natChars n) acc =
      some (acc * 10 ^ (natChars n).length + n) := by
  intro n
  induction n using Nat.strong_induction_on with
  | _ n ih =>
    intro acc
    by_cases h : n < 10
    · rw [natChars_lt h]
      simp [parseNatAux, digitChar_isDigit h, digitChar_toNat h]
    · rw [natChars_ge h]
      rw [parseNatAux_append]
      rw [ih (n / 10) (Nat.div_lt_self (by omega) (by omega)) acc]
      have h10 : n % 10 < 10 := Nat.mod_lt _ (by omega)
      simp only [Option.some_bind, parseNatAux, digitChar_isDigit h10, if_true,
        digitChar_toNat h10, List.length_append, List.length_cons,
        List.length_nil, Option.some.injEq]
      have e : n / 10 * 10 + n % 10 = n := by omega
      calc (acc * 10 ^ (natChars (n / 10)).length + n / 10) * 10 + n % 10
          = acc * (10 ^ (natChars (n / 10)).length * 10) +
              (n / 10 * 10 + n % 10) := by ring
        _ = acc * 10 ^ ((natChars (n / 10)).length + (0 + 1)) + n := by
            rw [e]
            ring

theorem parseNatChars_natChars (n : Nat) : parseNatChars (natChars n) = some n := by
  have hp := parseNatAux_natChars n 0
  rcases hl : natChars n with _ | ⟨c, cs⟩
  · exact absurd hl (natChars_ne_nil n)
  · rw [hl] at hp
    rw [parseNatChars, hp]
    simp

theorem parseIntChars_intChars (n : Int) : parseIntChars (intChars n) = some n := by
  by_cases h : n < 0
  · have e : -((n.natAbs : Int)) = n := by omega
    simp only [intChars, if_pos h, parseIntChars, if_pos (show ('-' : Char) = '-' from rfl),
      parseNatChars_natChars, Option.map_some']
    exact congrArg some e
  · have e : ((n.natAbs : Int)) = n := by omega
    simp only [intChars, if_neg h]
    rcases hl : natChars n.natAbs with _ | ⟨c, cs⟩
    · exact absurd hl (natChars_ne_nil _)
    · have hcd : c.isDigit = true := by
        apply mem_natChars_isDigit n.natAbs
        rw [hl]; simp
      have hp := parseNatChars_natChars n.natAbs
      rw [hl] at hp
      simp only [parseIntChars, if_neg (isDigit_ne_minus hcd), hp, Option.map_some']
      exact congrArg some e

theorem mem_intChars (n : Int) : ∀ c ∈ intChars n, c ≠ ',' ∧ c ≠ '\n' := by
  intro c hc
  rw [intChars] at hc
  by_cases h : n < 0
  · rw [if_pos h] at hc
    rcases List.mem_cons.mp hc with h1 | h1
    · subst h1; constructor <;> decide
    · have := mem_natChars_isDigit n.natAbs c h1
      exact ⟨isDigit_ne_comma this, isDigit_ne_newline this⟩
  · rw [if_neg h] at hc
    have := mem_natChars_isDigit n.natAbs c hc
    exact ⟨isDigit_ne_comma this, isDigit_ne_newline this⟩

end DigitLemmas

section SplitJoinLemmas

theorem splitOnCharAux_no_sep {c : Char} :
    ∀ l : List Char, ∀ acc : List Char, (∀ x ∈ l, x ≠ c) →
      splitOnCharAux c l acc = [acc.reverse ++ l] := by
  intro l
  induction l with
  | nil => intro acc _; simp [splitOnCharAux]
  | cons x xs ih =>
    intro acc hx
    have hxc : x ≠ c := hx x (by simp)
    rw [splitOnCharAux, if_neg hxc]
    rw [ih (x :: acc) (fun y hy => hx y (by simp [hy]))]
    simp

theorem splitOnCharAux_sep {c : Char} :
    ∀ l : List Char, ∀ rest acc : List Char, (∀ x ∈ l, x ≠ c) →
      splitOnCharAux c (l ++ c :: rest) acc =
        (acc.reverse ++ l) :: splitOnCharAux c rest [] := by
  intro l
  induction l with
  | nil =>
    intro rest acc _
    simp [splitOnCharAux]
  | cons x xs ih =>
    intro rest acc hx
    have hxc : x ≠ c := hx x (by simp)
    rw [List.cons_append, splitOnCharAux, if_neg hxc]
    rw [ih rest (x :: acc) (fun y hy => hx y (by simp [hy]))]
    simp

theorem splitOnChar_linesJoin :
    ∀ ls : List (List Char), (∀ l ∈ ls, ∀ x ∈ l, x ≠ '\n') →
      splitOnChar '\n' (linesJoin ls) = ls ++ [[]] := by
  intro ls
  induction ls with
  | nil => intro _; simp [linesJoin, splitOnChar, splitOnCharAux]
  | cons l ls ih =>
    intro hl
    rw [linesJoin, splitOnChar]
    rw [splitOnCharAux_sep l (linesJoin ls) [] (hl l (by simp))]
    rw [show splitOnCharAux '\n' (linesJoin ls) [] = splitOnChar '\n' (linesJoin ls) from rfl]
    rw [ih (fun m hm => hl m (by simp [hm]))]
    simp

theorem splitOnChar_intercalateChar {c : Char} :
    ∀ ls : List (List Char), ls ≠ [] → (∀ l ∈ ls, ∀ x ∈ l, x ≠ c) →
      splitOnChar c (intercalateChar c ls) = ls := by
  intro ls
  induction ls with
  | nil => intro h _; exact absurd rfl h
  | cons l ls ih =>
    intro _ hl
    cases ls with
    | nil =>
      rw [intercalateChar, splitOnChar]
      rw [splitOnCharAux_no_sep l [] (hl l (by simp))]
      simp
    | cons l2 ls2 =>
      rw [intercalateChar, splitOnChar]
      rw [splitOnCharAux_sep l (intercalateChar c (l2 :: ls2)) [] (hl l (by simp))]
      rw [show splitOnCharAux c (intercalateChar c (l2 :: ls2)) [] =
        splitOnChar c (intercalateChar c (l2 :: ls2)) from rfl]
      rw [ih (by simp) (fun m hm => hl m (by simp [hm]))]
      simp

theorem mem_intercalateChar {c : Char} :
    ∀ ls : List (List Char), ∀ x ∈ intercalateChar c ls,
      x = c ∨ ∃ l ∈ ls, x ∈ l := by
  intro ls
  induction ls with
  | nil => intro x hx; simp [intercalateChar] at hx
  | cons l ls ih =>
    intro x hx
    cases ls with
    | nil =>
      rw [intercalateChar] at hx
      right
      exact ⟨l, by simp, hx⟩
    | cons l2 ls2 =>
      rw [intercalateChar] at hx
      rcases List.mem_append.mp hx with h1 | h1
      · right; exact ⟨l, by simp, h1⟩
      · rcases List.mem_cons.mp h1 with h2 | h2
        · left; exact h2
        · rcases ih x h2 with h3 | ⟨m, hm, hxm⟩
          · left; exact h3
          · right; exact ⟨m, by simp [hm], hxm⟩

theorem stripTrailingEmpty_concat (ls : List (List Char)) :
    stripTrailingEmpty (ls ++ [[]]) = ls := by
  rw [stripTrailingEmpty]
  rw [List.getLast?_concat]
  simp

end SplitJoinLemmas

section CsvLemmas

theorem dfRowsAux_toDataFrame : ∀ bars : List Bar,
    dfRowsAux (toDataFrame bars).index (toDataFrame bars).cols =
      bars.map barCells := by
  intro bars
  induction bars with
  | nil => simp [toDataFrame, dfRowsAux]
  | cons b bs ih =>
    simp only [toDataFrame, List.map_cons, List.map_nil, dfRowsAux,
      List.headD_cons, List.tail_cons] at ih ⊢
    rw [ih]
    simp [barCells]

theorem csvCells_toDataFrame (bars : List Bar) :
    csvCells (toDataFrame bars) =
      ["Date".data, "Open".data, "High".data, "Low".data, "Close".data,
        "Volume".data] :: bars.map barCells := by
  rw [csvCells, dfRowsAux_toDataFrame]
  simp [toDataFrame]

theorem mem_barCells_ok {b : Bar} (hb : dateOk b.Date = true) :
    ∀ cell ∈ barCells b, ∀ x ∈ cell, x ≠ ',' ∧ x ≠ '\n' := by
  intro cell hcell x hx
  rw [barCells] at hcell
  simp only [List.mem_cons, List.mem_singleton, List.not_mem_nil, or_false] at hcell
  rcases hcell with h | h | h | h | h | h
  · subst h
    rw [dateOk, List.all_eq_true] at hb
    have := hb x hx
    simp at this
    exact ⟨by simpa using this.1, by simpa using this.2⟩
  all_goals subst h; exact mem_intChars _ x hx

theorem decodeRow_barCells (b : Bar) : decodeRow (barCells b) = some b := by
  simp [decodeRow, barCells, parseIntChars_intChars]

theorem decodeRows_map : ∀ bars : List Bar,
    decodeRows (bars.map barCells) = some bars := by
  intro bars
  induction bars with
  | nil => simp [decodeRows]
  | cons b bs ih =>
    rw [List.map_cons, decodeRows, decodeRow_barCells b, ih]

end CsvLemmas

section CsvRoundTrip

theorem header_cells_ok :
    ∀ cell ∈ [("Date").data, ("Open").data, ("High").data, ("Low").data,
      ("Close").data, ("Volume").data], ∀ x ∈ cell, x ≠ ',' ∧ x ≠ '\n' := by
  decide

theorem csvCells_ok {bars : List Bar} (h2 : ∀ b ∈ bars, dateOk b.Date = true) :
    ∀ cells ∈ csvCells (toDataFrame bars), ∀ cell ∈ cells,
      ∀ x ∈ cell, x ≠ ',' ∧ x ≠ '\n' := by
  rw [csvCells_toDataFrame]
  intro cells hc
  rcases List.mem_cons.mp hc with h | h
  · subst h
    exact header_cells_ok
  · rcases List.mem_map.mp h with ⟨b, hb, rfl⟩
    exact mem_barCells_ok (h2 b hb)

theorem csv_lines_ok {bars : List Bar} (h2 : ∀ b ∈ bars, dateOk b.Date = true) :
    ∀ l ∈ (csvCells (toDataFrame bars)).map (intercalateChar ','),
      ∀ x ∈ l, x ≠ '\n' := by
  intro l hl x hx
  rcases List.mem_map.mp hl with ⟨cells, hcells, rfl⟩
  rcases mem_intercalateChar _ x hx with h | ⟨cell, hcell, hxc⟩
  · subst h; decide
  · exact (csvCells_ok h2 cells hcells cell hcell x hxc).2

theorem split_csv (bars : List Bar) (h2 : ∀ b ∈ bars, dateOk b.Date = true) :
    stripTrailingEmpty (splitOnChar '\n' (toCsvText (toDataFrame bars)).data) =
      (csvCells (toDataFrame bars)).map (intercalateChar ',') := by
  have hsplit : splitOnChar '\n' (toCsvText (toDataFrame bars)).data =
      ((csvCells (toDataFrame bars)).map (intercalateChar ',')) ++ [[]] := by
    show splitOnChar '\n' (csvChars (toDataFrame bars)) = _
    rw [csvChars]
    exact splitOnChar_linesJoin _ (csv_lines_ok h2)
  rw [hsplit, stripTrailingEmpty_concat]

theorem body_rows_split {bars : List Bar} (h2 : ∀ b ∈ bars, dateOk b.Date = true) :
    ((bars.map barCells).map (intercalateChar ',')).map (splitOnChar ',') =
      bars.map barCells := by
  rw [List.map_map, List.map_map]
  apply List.map_congr_left
  intro b hb
  show splitOnChar ',' (intercalateChar ',' (barCells b)) = barCells b
  apply splitOnChar_intercalateChar
  · simp [barCells]
  · intro cell hcell x hx
    exact (mem_barCells_ok (h2 b hb) cell hcell x hx).1

end CsvRoundTrip

section PercentShape

theorem fixed2Chars_shape (q : ℚ) :
    ∃ pre d1 d2, fixed2Chars q = pre ++ ['.', d1, d2] ∧
      d1.isDigit = true ∧ d2.isDigit = true := by
  refine ⟨(if q < 0 then ['-'] else []) ++
      natChars ((roundHalfEven (q * 100)).natAbs / 100),
    Nat.digitChar ((roundHalfEven (q * 100)).natAbs % 100 / 10),
    Nat.digitChar ((roundHalfEven (q * 100)).natAbs % 10), ?_, ?_, ?_⟩
  · simp only [fixed2Chars, List.append_assoc]
  · exact digitChar_isDigit (by omega)
  · exact digitChar_isDigit (by omega)

theorem twoFracDigitsPct_formatPercent2 (q : ℚ) :
    twoFracDigitsPct (formatPercent2 q) = true := by
  obtain ⟨pre, d1, d2, he, h1, h2⟩ := fixed2Chars_shape (q * 100)
  simp only [twoFracDigitsPct, formatPercent2, he]
  have hrev : ((pre ++ ['.', d1, d2]) ++ ['%']).reverse =
      '%' :: d2 :: d1 :: '.' :: pre.reverse := by
    simp
  rw [hrev]
  simp [h1, h2]

end PercentShape

section MetricsLoop

theorem except_bind_ok {γ α β : Type} (a : α) (f : α → Except γ β) :
    (Except.ok a >>= f) = f a := rfl

theorem except_bind_err {γ α β : Type} (e : γ) (f : α → Except γ β) :
    ((Except.error e : Except γ α) >>= f) = Except.error e := rfl

theorem except_pure {γ α : Type} (a : α) : (pure a : Except γ α) = Except.ok a := rfl

theorem buildKeyMetricsGo_mem : ∀ ks : List String,
    ∀ info : Snapshot, ∀ l : List (String × PyVal), ∀ k : String, ∀ v w : PyVal,
    buildKeyMetricsGo info ks = Except.ok l → k ∈ ks →
    lookupS info k = some v → formatMetricValue k v = Except.ok w →
    (k, w) ∈ l := by
  intro ks
  induction ks with
  | nil =>
    intro info l k v w _ hk
    simp at hk
  | cons k0 ks ih =>
    intro info l k v w hgo hk hlv hfm
    rw [buildKeyMetricsGo] at hgo
    rcases List.mem_cons.mp hk with rfl | hk'
    · simp only [hlv] at hgo
      cases hrest : buildKeyMetricsGo info ks with
      | error e =>
        rw [hfm, hrest] at hgo
        simp only [except_bind_ok, except_bind_err] at hgo
        exact Except.noConfusion hgo
      | ok rest =>
        rw [hfm, hrest] at hgo
        simp only [except_bind_ok, except_pure] at hgo
        injection hgo with h
        rw [← h]
        exact List.mem_cons_self _ _
    · cases hlk0 : lookupS info k0 with
      | none =>
        simp only [hlk0] at hgo
        exact ih info l k v w hgo hk' hlv hfm
      | some v0 =>
        simp only [hlk0] at hgo
        cases hfm0 : formatMetricValue k0 v0 with
        | error e =>
          rw [hfm0] at hgo
          simp only [except_bind_err] at hgo
          exact Except.noConfusion hgo
        | ok w0 =>
          cases hrest : buildKeyMetricsGo info ks with
          | error e =>
            rw [hfm0, hrest] at hgo
            simp only [except_bind_ok, except_bind_err] at hgo
            exact Except.noConfusion hgo
          | ok rest =>
            rw [hfm0, hrest] at hgo
            simp only [except_bind_ok, except_pure] at hgo
            injection hgo with h
            rw [← h]
            exact List.mem_cons_of_mem _ (ih info rest k v w hrest hk' hlv hfm)

end MetricsLoop

section AppLemmas

theorem buildFigure_toDataFrame (symbol : String) (bars : List Bar) :
    buildFigure symbol (toDataFrame bars) =
      some { x := bars.map (fun b => b.Date),
             openData := bars.map (fun b => b.Open),
             highData := bars.map (fun b => b.High),
             lowData := bars.map (fun b => b.Low),
             closeData := bars.map (fun b => b.Close),
             volX := bars.map (fun b => b.Date),
             volY := bars.map (fun b => b.Volume),
             title := symbol ++ " Stock Price and Volume" } := rfl

theorem get_stock_data_inv (resp : Except String (List Bar)) (df : DataFrame)
    (ds : List String) (h : get_stock_data resp = (some df, ds)) :
    ∃ bars, resp = Except.ok bars ∧ bars ≠ [] ∧ df = toDataFrame bars ∧ ds = [] := by
  cases resp with
  | error e => simp [get_stock_data] at h
  | ok bars =>
    by_cases he : dfEmpty (toDataFrame bars) = true
    · simp [get_stock_data, he] at h
    · simp only [get_stock_data, if_neg he, Prod.mk.injEq, Option.some.injEq] at h
      refine ⟨bars, rfl, ?_, h.1.symm, h.2.symm⟩
      intro hnil
      subst hnil
      exact he (by decide)

theorem runApp_empty_series (rawSymbol period interval : String) (info : Snapshot)
    (h : pyUpper rawSymbol ≠ "") :
    runApp true rawSymbol period interval (Except.ok []) (Except.ok info) =
      ({ errors := ["Could not retrieve data for " ++ pyUpper rawSymbol ++
          ". Please verify the stock symbol and try again."] }, 2) := by
  simp [runApp, get_stock_data, get_stock_info, dfEmpty, toDataFrame, h]

end AppLemmas

section ZeroFormat

theorem roundHalfEven_zero : roundHalfEven 0 = 0 := by
  unfold roundHalfEven
  norm_num

theorem formatFixed2_zero : formatFixed2 0 = "0.00" := by
  unfold formatFixed2 fixed2Chars
  rw [zero_mul, roundHalfEven_zero]
  norm_num
  decide

end ZeroFormat

section Claims

/-- C1, counterexample: on a Success-path fetch whose snapshot is empty,
the `'N/A'` default of `currentPrice` is formatted with `.2f`, raising a
`ValueError` that the `except (TypeError, KeyError)` clause does not
catch: the render aborts with no warning banner, and the chart, tables
and CSV link do not render — contradicting the claim that any
unformattable field degrades to a warning while the rest still renders. -/
theorem C1_counterexample :
    (runApp true "AAPL" "1y" "1d" (Except.ok [demoBar]) (Except.ok [])).1.headerText =
      some "AAPL (AAPL)" ∧
    (runApp true "AAPL" "1y" "1d" (Except.ok [demoBar]) (Except.ok [])).1.uncaught =
      some PyErr.valueError ∧
    (runApp true "AAPL" "1y" "1d" (Except.ok [demoBar]) (Except.ok [])).1.headlineWarning =
      false ∧
    (runApp true "AAPL" "1y" "1d" (Except.ok [demoBar]) (Except.ok [])).1.chart = none ∧
    (runApp true "AAPL" "1y" "1d" (Except.ok [demoBar]) (Except.ok [])).1.dataTable = false ∧
    (runApp true "AAPL" "1y" "1d" (Except.ok [demoBar]) (Except.ok [])).1.csvLink = none := by
  decide

/-- C1, amended: only formatting failures raising `TypeError` or
`KeyError` (for example a `None` value, not the `'N/A'` string default)
are caught locally: then the headline block degrades to the warning
banner and the chart, metrics table, data table and CSV link still
render. -/
theorem C1_format_failure_containment (symbol : String) (bars : List Bar)
    (info : Snapshot) (e : PyErr) (km : List (String × PyVal))
    (h1 : headlineExc info = Except.error e)
    (h2 : e = PyErr.typeError ∨ e = PyErr.keyError)
    (h3 : buildKeyMetrics info = Except.ok km) :
    (renderSuccess symbol (toDataFrame bars) info).headlineWarning = true ∧
    (renderSuccess symbol (toDataFrame bars) info).headlineMetrics = none ∧
    (renderSuccess symbol (toDataFrame bars) info).chart =
      some { x := bars.map (fun b => b.Date),
             openData := bars.map (fun b => b.Open),
             highData := bars.map (fun b => b.High),
             lowData := bars.map (fun b => b.Low),
             closeData := bars.map (fun b => b.Close),
             volX := bars.map (fun b => b.Date),
             volY := bars.map (fun b => b.Volume),
             title := symbol ++ " Stock Price and Volume" } ∧
    (renderSuccess symbol (toDataFrame bars) info).metricsTable =
      some (labeledMetrics km) ∧
    (renderSuccess symbol (toDataFrame bars) info).dataTable = true ∧
    (renderSuccess symbol (toDataFrame bars) info).csvLink =
      some (get_csv_download_link (toDataFrame bars) (symbol ++ "_data.csv")) ∧
    (renderSuccess symbol (toDataFrame bars) info).uncaught = none := by
  have hrs : renderSuccess symbol (toDataFrame bars) info =
      afterHeadline symbol (toDataFrame bars) info
        (pyStr (pyGetD info "shortName" (PyVal.str symbol)) ++ " (" ++ symbol ++ ")")
        none true := by
    simp only [renderSuccess, h1]
    rw [if_pos h2]
  rw [hrs]
  simp [afterHeadline, buildFigure_toDataFrame, h3]

/-- C1, witness: a snapshot holding `currentPrice = None` raises
`TypeError`, is caught, and the page still renders its warning plus
chart and tables. -/
theorem C1_format_failure_containment_witness :
    (renderSuccess "AAPL" (toDataFrame [demoBar])
        [("currentPrice", PyVal.none)]).headlineWarning = true ∧
    (renderSuccess "AAPL" (toDataFrame [demoBar])
        [("currentPrice", PyVal.none)]).dataTable = true :=
  ⟨(C1_format_failure_containment "AAPL" [demoBar] [("currentPrice", PyVal.none)]
      PyErr.typeError [] rfl (Or.inl rfl) rfl).1,
   (C1_format_failure_containment "AAPL" [demoBar] [("currentPrice", PyVal.none)]
      PyErr.typeError [] rfl (Or.inl rfl) rfl).2.2.2.2.1⟩

/-- C2: the period selectbox offers only the eleven presets — the string
`"custom"` is not among them — so every reachable selection dispatches
the provider call by preset+interval and the explicit start/end branch
of the dispatch (lines 91-92) is unreachable, contradicting the claim
that some reachable selection passes the start/end dates. -/
theorem C2_dispatch_always_preset :
    ("custom" ∉ period_options) ∧
    period_options.all (fun p =>
      appSeriesQuery "AAPL" p "1d" 0 365 ==
        ProviderQuery.byPreset "AAPL" p "1d") = true := by
  decide

/-- C3, counterexample: a snapshot with `dividendYield = None` reaches
the metrics table as the raw null — the loop only skips the formatting,
not the row — contradicting the claim that a null yield metric does not
appear in the rendered table. -/
theorem C3_counterexample :
    (runApp true "AAPL" "1y" "1d" (Except.ok [demoBar])
        (Except.ok [("currentPrice", PyVal.none),
          ("dividendYield", PyVal.none)])).1.metricsTable =
      some [("Dividend Yield", PyVal.none)] := by
  decide

/-- C3, amended: a non-null numeric yield value renders as a percentage
with exactly two fraction digits and a trailing `%`; a null yield value
skips the formatting only — the key still appears in the metrics table
with its raw null value. -/
theorem C3_yield_formatting (key : String) (hk : key ∈ metric_keys)
    (hy : containsSub ("yield").data (pyLower key).data = true) :
    (∀ q : ℚ, formatMetricValue key (PyVal.num q) =
        Except.ok (PyVal.str (formatPercent2 q)) ∧
      twoFracDigitsPct (formatPercent2 q) = true) ∧
    formatMetricValue key PyVal.none = Except.ok PyVal.none ∧
    (∀ info l, buildKeyMetrics info = Except.ok l →
      lookupS info key = some PyVal.none → (key, PyVal.none) ∈ l) := by
  have hcase : key = "dividendYield" ∨ key = "trailingAnnualDividendYield" := by
    rw [metric_keys] at hk
    fin_cases hk <;> first
      | exact Or.inl rfl
      | exact Or.inr rfl
      | exact absurd hy (by decide)
  rcases hcase with rfl | rfl
  · refine ⟨fun q => ⟨rfl, twoFracDigitsPct_formatPercent2 q⟩, rfl, ?_⟩
    intro info l hbuild hlook
    exact buildKeyMetricsGo_mem metric_keys info l _ PyVal.none PyVal.none
      hbuild (by decide) hlook rfl
  · refine ⟨fun q => ⟨rfl, twoFracDigitsPct_formatPercent2 q⟩, rfl, ?_⟩
    intro info l hbuild hlook
    exact buildKeyMetricsGo_mem metric_keys info l _ PyVal.none PyVal.none
      hbuild (by decide) hlook rfl

/-- C3, witness: `dividendYield = 0.0052` formats to a two-fraction-digit
percentage, and a null `dividendYield` passes through unformatted. -/
theorem C3_yield_formatting_witness :
    (formatMetricValue "dividendYield" (PyVal.num (52/10000)) =
        Except.ok (PyVal.str (formatPercent2 (52/10000))) ∧
      twoFracDigitsPct (formatPercent2 (52/10000)) = true) ∧
    formatMetricValue "dividendYield" PyVal.none = Except.ok PyVal.none :=
  ⟨(C3_yield_formatting "dividendYield" (by decide) (by decide)).1 (52/10000),
   (C3_yield_formatting "dividendYield" (by decide) (by decide)).2.1⟩

/-- C4, counterexample: `get_stock_info` applied to a provider response
holding an empty snapshot returns the snapshot itself, not `None` — the
empty-result normalization of `get_stock_data` has no counterpart here,
contradicting the claim that an empty snapshot maps to NotFound. -/
theorem C4_counterexample :
    (get_stock_info (Except.ok ([] : Snapshot))).1 ≠ none := by
  decide

/-- C4, amended: `fetchSnapshot` returns NotFound only on a provider
exception and passes an empty snapshot through unchanged; a symbol with
empty series and empty snapshot nevertheless takes the Failed path with
exactly one error message and no chart or tables, because the empty
series is normalized to NotFound by `get_stock_data`. -/
theorem C4_empty_snapshot_passthrough (rawSymbol period interval : String)
    (h : pyUpper rawSymbol ≠ "") :
    get_stock_info (Except.ok ([] : Snapshot)) = (some [], []) ∧
    (runApp true rawSymbol period interval (Except.ok [])
        (Except.ok [])).1.errors =
      ["Could not retrieve data for " ++ pyUpper rawSymbol ++
        ". Please verify the stock symbol and try again."] ∧
    (runApp true rawSymbol period interval (Except.ok [])
        (Except.ok [])).1.chart = none ∧
    (runApp true rawSymbol period interval (Except.ok [])
        (Except.ok [])).1.metricsTable = none ∧
    (runApp true rawSymbol period interval (Except.ok [])
        (Except.ok [])).1.dataTable = false := by
  refine ⟨rfl, ?_, ?_, ?_, ?_⟩ <;>
    simp only [runApp_empty_series rawSymbol period interval [] h]

/-- C4, witness: the empty-series, empty-snapshot fetch for `"ZZZZINVALID"`. -/
theorem C4_empty_snapshot_passthrough_witness :
    (runApp true "ZZZZINVALID" "1y" "1d" (Except.ok [])
        (Except.ok [])).1.errors =
      ["Could not retrieve data for " ++ pyUpper "ZZZZINVALID" ++
        ". Please verify the stock symbol and try again."] :=
  (C4_empty_snapshot_passthrough "ZZZZINVALID" "1y" "1d" (by decide)).2.1

/-- C5, counterexample: after a failed fetch the `df` variable is
defined, so the idle-guard block (line 232) is skipped: the shell shows
neither the instructions nor the popular-symbols table, whereas before
any fetch both are shown — contradicting the claim that the Failed
display is Idle-equivalent. -/
theorem C5_counterexample :
    (runApp true "AAPL" "1y" "1d" (Except.ok [])
        (Except.ok [])).1.instructions = false ∧
    (runApp true "AAPL" "1y" "1d" (Except.ok [])
        (Except.ok [])).1.popularTable = none ∧
    (runApp false "AAPL" "1y" "1d" (Except.ok [])
        (Except.ok [])).1.instructions = true ∧
    (runApp false "AAPL" "1y" "1d" (Except.ok [])
        (Except.ok [])).1.popularTable = some popular_stocks := by
  decide

/-- C5, amended: on a NotFound failure (empty provider series) the shell
shows a single error naming the symbol and performs no partial render —
no header, chart, tables or CSV link — but unlike the Idle display it
shows neither the instructions nor the popular-symbols table. -/
theorem C5_failed_no_partial_render (rawSymbol period interval : String)
    (info : Snapshot) (h : pyUpper rawSymbol ≠ "") :
    (runApp true rawSymbol period interval (Except.ok [])
        (Except.ok info)).1.errors =
      ["Could not retrieve data for " ++ pyUpper rawSymbol ++
        ". Please verify the stock symbol and try again."] ∧
    (runApp true rawSymbol period interval (Except.ok [])
        (Except.ok info)).1.headerText = none ∧
    (runApp true rawSymbol period interval (Except.ok [])
        (Except.ok info)).1.chart = none ∧
    (runApp true rawSymbol period interval (Except.ok [])
        (Except.ok info)).1.metricsTable = none ∧
    (runApp true rawSymbol period interval (Except.ok [])
        (Except.ok info)).1.dataTable = false ∧
    (runApp true rawSymbol period interval (Except.ok [])
        (Except.ok info)).1.csvLink = none ∧
    (runApp true rawSymbol period interval (Except.ok [])
        (Except.ok info)).1.instructions = false ∧
    (runApp true rawSymbol period interval (Except.ok [])
        (Except.ok info)).1.popularTable = none := by
  refine ⟨?_, ?_, ?_, ?_, ?_, ?_, ?_, ?_⟩ <;>
    simp only [runApp_empty_series rawSymbol period interval info h]

/-- C5, witness: the failed fetch for `"MSFT"` with a nonempty snapshot. -/
theorem C5_failed_no_partial_render_witness :
    (runApp true "MSFT" "1y" "1d" (Except.ok [])
        (Except.ok [("shortName", PyVal.str "Microsoft")])).1.errors =
      ["Could not retrieve data for " ++ pyUpper "MSFT" ++
        ". Please verify the stock symbol and try again."] :=
  (C5_failed_no_partial_render "MSFT" "1y" "1d"
    [("shortName", PyVal.str "Microsoft")] (by decide)).1

/-- C6: the one-hour TTL memoization (modelled from the spec, since
`st.cache_data` lives in the Streamlit framework, not in `src/`): the
first fetch stores the value and calls the provider; an identical
request strictly inside the 3600-second window returns the identical
cached value with no provider call; an identical request at or past the
window boundary calls the provider again and stores the fresh value. -/
theorem C6_cache_ttl {κ α : Type} [DecidableEq κ] (k : κ) (v1 v2 : α)
    (t0 t1 : Nat) :
    cachedFetch ([] : List (κ × α × Nat)) t0 k v1 = (v1, [(k, v1, t0)], true) ∧
    (t1 < t0 + 3600 →
      cachedFetch [(k, v1, t0)] t1 k v2 = (v1, [(k, v1, t0)], false)) ∧
    (t0 + 3600 ≤ t1 →
      cachedFetch [(k, v1, t0)] t1 k v2 = (v2, [(k, v2, t1)], true)) := by
  refine ⟨rfl, ?_, ?_⟩
  · intro h
    simp [cachedFetch, List.find?, h]
  · intro h
    have h2 : ¬ t1 < t0 + 3600 := by omega
    simp [cachedFetch, List.find?, List.filter, h2]

/-- C6, witness: a request key repeated at `t = 100` hits the cache and
at `t = 3600` refetches. -/
theorem C6_cache_ttl_witness :
    cachedFetch [(("AAPL", "1y", "1d"), [demoBar], 0)] 100 ("AAPL", "1y", "1d")
        ([] : List Bar) =
      ([demoBar], [(("AAPL", "1y", "1d"), [demoBar], 0)], false) ∧
    cachedFetch [(("AAPL", "1y", "1d"), [demoBar], 0)] 3600 ("AAPL", "1y", "1d")
        ([] : List Bar) =
      ([], [(("AAPL", "1y", "1d"), ([] : List Bar), 3600)], true) :=
  ⟨(C6_cache_ttl ("AAPL", "1y", "1d") [demoBar] [] 0 100).2.1 (by omega),
   (C6_cache_ttl ("AAPL", "1y", "1d") [demoBar] [] 0 3600).2.2 (by omega)⟩

/-- C7: CSV export round-trip — for every non-empty bar list whose
timestamp cells contain no separator characters, parsing the exported
CSV text (`df.to_csv(index=True)`, the text that the base64 data-URI
download link of `get_csv_download_link` encodes, named
`{symbol}_data.csv` at the call site) reproduces exactly the source
bars: same row count, same timestamps, same Open/High/Low/Close/Volume
values. -/
theorem C7_csv_roundtrip (bars : List Bar) (h1 : bars ≠ [])
    (h2 : ∀ b ∈ bars, dateOk b.Date = true) :
    decodeCsv (toCsvText (toDataFrame bars)) = some bars := by
  unfold decodeCsv
  rw [split_csv bars h2, csvCells_toDataFrame]
  simp only [List.map_cons]
  have hH : intercalateChar ',' [("Date").data, ("Open").data, ("High").data,
      ("Low").data, ("Close").data, ("Volume").data] =
      ("Date,Open,High,Low,Close,Volume").data := rfl
  rw [hH]
  simp only [if_pos]
  rw [body_rows_split h2]
  exact decodeRows_map bars

/-- C7, witness: the one-bar frame round-trips. -/
theorem C7_csv_roundtrip_witness :
    decodeCsv (toCsvText (toDataFrame [demoBar])) = some [demoBar] :=
  C7_csv_roundtrip [demoBar] (by decide)
    (by intro b hb; simp only [List.mem_singleton] at hb; subst hb; decide)

/-- C8: the chart renderer is a total function of the fetched frame —
every frame `get_stock_data` accepts (a non-empty provider frame, which
always carries the Open/High/Low/Close/Volume columns) yields a
candlestick-plus-volume figure; no column access can fail. -/
theorem C8_chart_total (resp : Except String (List Bar)) (df : DataFrame)
    (ds : List String) (symbol : String)
    (h : get_stock_data resp = (some df, ds)) :
    ∃ fig, buildFigure symbol df = some fig := by
  obtain ⟨bars, _, _, rfl, _⟩ := get_stock_data_inv resp df ds h
  exact ⟨_, buildFigure_toDataFrame symbol bars⟩

/-- C8, witness: the accepted one-bar frame builds its figure. -/
theorem C8_chart_total_witness :
    ∃ fig, buildFigure "AAPL" (toDataFrame [demoBar]) = some fig :=
  C8_chart_total (Except.ok [demoBar]) (toDataFrame [demoBar]) [] "AAPL" rfl

/-- C9: a fetch action triggered with the empty symbol shows exactly the
validation error, performs zero provider-fetch invocations, and leaves
the idle instructions and popular-symbols table on display. -/
theorem C9_empty_symbol (period interval : String)
    (seriesResp : Except String (List Bar))
    (infoResp : Except String Snapshot) :
    runApp true "" period interval seriesResp infoResp =
      ({ errors := ["Please enter a stock symbol"], instructions := true,
         popularTable := some popular_stocks }, 0) := rfl

/-- C10: when `marketCap` is absent on the Success path (and the other
three headline attributes are numeric), the headline block substitutes
the default `0`, divides it by $10^9$ and renders `"$0.00B"` rather
than an absence indicator, while the other three headline metrics use
the string `'N/A'` as their default for absent attributes. -/
theorem C10_marketcap_default (info : Snapshot) (p pe lo hi : ℚ)
    (h1 : lookupS info "marketCap" = none)
    (h2 : lookupS info "currentPrice" = some (PyVal.num p))
    (h3 : lookupS info "trailingPE" = some (PyVal.num pe))
    (h4 : lookupS info "fiftyTwoWeekLow" = some (PyVal.num lo))
    (h5 : lookupS info "fiftyTwoWeekHigh" = some (PyVal.num hi)) :
    headlineExc info = Except.ok ["$" ++ formatFixed2 p, "$0.00B",
      formatFixed2 pe, "$" ++ formatFixed2 lo ++ " - $" ++ formatFixed2 hi] ∧
    pyGetD info "marketCap" (PyVal.int 0) = PyVal.int 0 ∧
    (∀ info2 : Snapshot, ∀ key : String, lookupS info2 key = Option.none →
      pyGetD info2 key (PyVal.str "N/A") = PyVal.str "N/A") := by
  have hz : (((0 : Int) : ℚ) / ((1000000000 : Int) : ℚ)) = 0 := by norm_num
  refine ⟨?_, ?_, ?_⟩
  · simp only [headlineExc, pyGetD, h1, h2, h3, h4, h5, Option.getD_some,
      Option.getD_none, fmt2f, pyDiv, except_bind_ok, except_pure, hz,
      formatFixed2_zero]
    rfl
  · rw [pyGetD, h1]
    rfl
  · intro info2 key hkey
    rw [pyGetD, hkey]
    rfl

/-- C10, witness: a snapshot with the three other headline attributes
present and `marketCap` absent renders the `"$0.00B"` market cap. -/
theorem C10_marketcap_default_witness :
    headlineExc [("currentPrice", PyVal.num 5), ("trailingPE", PyVal.num 2),
        ("fiftyTwoWeekLow", PyVal.num 1), ("fiftyTwoWeekHigh", PyVal.num 9)] =
      Except.ok ["$" ++ formatFixed2 5, "$0.00B", formatFixed2 2,
        "$" ++ formatFixed2 1 ++ " - $" ++ formatFixed2 9] :=
  (C10_marketcap_default
    [("currentPrice", PyVal.num 5), ("trailingPE", PyVal.num 2),
     ("fiftyTwoWeekLow", PyVal.num 1), ("fiftyTwoWeekHigh", PyVal.num 9)]
    5 2 1 9 rfl rfl rfl rfl rfl).1

end Claims

end StockApp
